import Mathlib

/-!
Verification of the rythmx discovery-and-reconciliation pipeline.

Shallow embedding of the Python sources:
  * `app/scheduler.py`            — cycle orchestrator (`run_cycle`)
  * `app/db/soulsync_reader.py`   — tiered ownership matcher (`check_album_owned`)
  * `app/db/cc_store.py`          — identity cache, release cache, download queue
  * `app/music_client.py`         — provider release fetchers and discovery chain
  * `app/services/acquisition.py` — acquisition queue worker (`check_queue`)

Conventions used throughout:
  * Python `str | None` parameters become `Option String`; Python truthiness
    (`if x:`) on such values is `pyTruthy` (both `None` and `""` are falsy).
  * SQLite `lower()` lowercases ASCII only; `sqlLower` mirrors that.
  * SQL `SELECT ... LIMIT 1` over a table is `List.find?` in row order.
  * Timestamps are seconds as `Nat`; ISO `YYYY-MM-DD` date strings are compared
    with their lexicographic order, which on well-formed dates coincides with
    the order of the `datetime` values Python compares.
-/

namespace Rythmx

/-- Python truthiness of a `str | None` value: `None` and `""` are falsy. -/
def pyTruthy : Option String → Bool
  | none => false
  | some s => !s.isEmpty

/-- Python `a or b` on `str | None` values: `b` when `a` is falsy. -/
def pyOr (a b : Option String) : Option String :=
  if pyTruthy a then a else b

/-- ASCII lowercase of one character, as SQLite `lower()` applies it. -/
def asciiLowerChar (c : Char) : Char :=
  if c.isUpper then Char.ofNat (c.toNat + 32) else c

/-- SQLite `lower()`: ASCII-only lowercasing of a string. -/
def sqlLower (s : String) : String := ⟨s.data.map asciiLowerChar⟩

/-- Character-list substring search: does `n` occur inside `h`? -/
def charSub (n : List Char) : List Char → Bool
  | [] => n.isEmpty
  | c :: t => n.isPrefixOf (c :: t) || charSub n t

/-- Python `needle in haystack` on strings (substring containment). -/
def strIn (needle hay : String) : Bool := charSub needle.data hay.data

/-- Lexicographic strict order on strings, used for date comparisons. -/
def strLt (a b : String) : Bool := compare a b == Ordering.lt

/-- Lexicographic strict "greater than" on strings. -/
def strGt (a b : String) : Bool := compare a b == Ordering.gt

/-!  ## Cycle orchestrator — `app/scheduler.py`

Module-level state `_is_running`, `_last_run`, `_last_result` becomes a state
record.  Result dicts become association lists of string pairs.  The cycle body
`_execute_cycle` is abstracted as an `Except` value (its returned summary dict,
or the text of the exception it raises); `run_cycle` catches the exception,
records the outcomes and clears the flag in its `finally` block.  The output
also records whether the body was entered at all (`bodyRan`), so that
"no pipeline stage executes on the skipped path" is expressible. -/

/-- A Python dict with string keys and values, in insertion order. -/
abbrev ResultDict := List (String × String)

/-- Scheduler module-level state of `app/scheduler.py`. -/
structure SchedState where
  is_running : Bool
  last_run : Option Nat
  last_result : ResultDict
  deriving Repr, DecidableEq

/-- The dict `run_cycle` returns when a cycle is already in progress. -/
def skippedResult : ResultDict :=
  [("status", "skipped"), ("reason", "already_running")]

/-- The dict `run_cycle` records when `_execute_cycle` raises `e`. -/
def errorResult (msg : String) : ResultDict :=
  [("status", "error"), ("message", msg)]

/-- Outcome of one `run_cycle` invocation: returned dict, new module state,
and whether the cycle body `_execute_cycle` was entered. -/
structure RunCycleOut where
  result : ResultDict
  state : SchedState
  bodyRan : Bool
  deriving Repr, DecidableEq

/-- `scheduler.run_cycle`: skip when the flag is set; otherwise set the flag
and `_last_run`, run the body, record success or the caught exception as
`_last_result`, and clear the flag in the `finally` block. -/
def run_cycle (body : Except String ResultDict) (now : Nat)
    (st : SchedState) : RunCycleOut :=
  if st.is_running then
    { result := skippedResult, state := st, bodyRan := false }
  else
    match body with
    | Except.ok r =>
        { result := r
          state := { is_running := false, last_run := some now, last_result := r }
          bodyRan := true }
    | Except.error msg =>
        { result := errorResult msg
          state := { is_running := false, last_run := some now
                     last_result := errorResult msg }
          bodyRan := true }

end Rythmx

namespace Rythmx

/-- C1: an invocation of `run_cycle` made while `is_running` is set returns the
`skipped`/`already_running` dict immediately, leaves the whole module state
(including `last_result`) unchanged, and never enters the cycle body, hence
executes no discovery, ownership-check, queue or playlist stage. -/
theorem c1_run_cycle_single_flight (body : Except String ResultDict)
    (now : Nat) (st : SchedState) (h : st.is_running = true) :
    run_cycle body now st =
      { result := skippedResult, state := st, bodyRan := false } := by
  simp [run_cycle, h]

/-- C1 witness: the guard observed on a concrete in-progress state. -/
theorem c1_run_cycle_single_flight_witness :
    run_cycle (Except.ok [("status", "ok")]) 42
        { is_running := true, last_run := none, last_result := [("k", "v")] } =
      { result := skippedResult
        state := { is_running := true, last_run := none
                   last_result := [("k", "v")] }
        bodyRan := false } :=
  c1_run_cycle_single_flight (Except.ok [("status", "ok")]) 42
    { is_running := true, last_run := none, last_result := [("k", "v")] } rfl

/-- C2 counterexample: the claim asserts `is_running` is false after *every*
exit path of `run_cycle`, including the skipped one.  On the skipped path the
flag is left exactly as the in-flight cycle set it: starting from a state with
the flag set, the call returns with the flag still `true`. -/
theorem c2_counterexample :
    (run_cycle (Except.ok [("status", "ok")]) 0
        { is_running := true, last_run := none,
          last_result := [] }).state.is_running = true := rfl

/-- C2 amended: when `_execute_cycle` raises, `run_cycle` catches the
exception, records and returns the error dict as `last_result`; on the exit
paths that set the flag (normal completion and exception) the flag is false
afterwards; the skipped exit leaves the module state, flag included,
unchanged. -/
theorem c2_error_caught_flag_released (body : Except String ResultDict)
    (msg : String) (now : Nat) (st : SchedState) :
    (st.is_running = false →
      (run_cycle (Except.error msg) now st).result = errorResult msg ∧
      (run_cycle (Except.error msg) now st).state.last_result = errorResult msg ∧
      (run_cycle (Except.error msg) now st).state.is_running = false) ∧
    (st.is_running = false →
      (run_cycle body now st).state.is_running = false) ∧
    (st.is_running = true → (run_cycle body now st).state = st) := by
  refine ⟨fun h => ?_, fun h => ?_, fun h => ?_⟩
  · simp [run_cycle, h]
  · cases body <;> simp [run_cycle, h]
  · simp [run_cycle, h]

/-- C2 witness: the amended statement observed on concrete states. -/
theorem c2_error_caught_flag_released_witness :
    (run_cycle (Except.error "boom") 7
        { is_running := false, last_run := none, last_result := [] }).result =
      errorResult "boom" ∧
    (run_cycle (Except.error "boom") 7
        { is_running := false, last_run := none,
          last_result := [] }).state.is_running = false :=
  ⟨(c2_error_caught_flag_released (Except.error "boom") "boom" 7
      { is_running := false, last_run := none, last_result := [] }).1 rfl |>.1,
   ((c2_error_caught_flag_released (Except.error "boom") "boom" 7
      { is_running := false, last_run := none, last_result := [] }).1 rfl).2.2⟩

end Rythmx

namespace Rythmx

/-!  ## Ownership matcher — `app/db/soulsync_reader.py`

The SoulSync SQLite library is modelled relationally: `artists`, `albums` and
`tracks` rows in table order.  `SELECT ... LIMIT 1` is `List.find?`; an SQL
`=` comparison against a NULL column is false (`optEq`); `lower()` is
`sqlLower`.  Each tier of `check_album_owned` is one named query, and the
function sequences them with early return on the first hit (`firstHit`),
exactly as the source's `if row: return row[0]` blocks do. -/

/-- A row of SoulSync's `artists` table (columns used by the matcher). -/
structure SSArtist where
  id : String
  name : String
  itunes_artist_id : Option String
  spotify_artist_id : Option String
  deriving Repr, DecidableEq

/-- A row of SoulSync's `albums` table (columns used by the matcher).
SoulSync stores the Deezer album id in `albums.deezer_id`. -/
structure SSAlbum where
  id : String
  artist_id : String
  title : String
  itunes_album_id : Option String
  deezer_id : Option String
  spotify_album_id : Option String
  deriving Repr, DecidableEq

/-- A row of SoulSync's `tracks` table: `tracks.id` is the Plex rating key,
with FK joins to `artists` and `albums`. -/
structure SSTrack where
  id : String
  artist_id : String
  album_id : String
  deriving Repr, DecidableEq

/-- The SoulSync library database (the three tables the matcher joins). -/
structure SSDB where
  artists : List SSArtist
  albums : List SSAlbum
  tracks : List SSTrack
  deriving Repr, DecidableEq

/-- SQL `col = ?` against a nullable column: false when the column is NULL. -/
def optEq (o : Option String) (q : String) : Bool :=
  match o with
  | some v => v == q
  | none => false

/-- `JOIN albums al ON t.album_id = al.id` — the album row of a track. -/
def albumOf (db : SSDB) (t : SSTrack) : Option SSAlbum :=
  db.albums.find? (fun al => al.id == t.album_id)

/-- `JOIN artists a ON t.artist_id = a.id` — the artist row of a track. -/
def artistOf (db : SSDB) (t : SSTrack) : Option SSArtist :=
  db.artists.find? (fun a => a.id == t.artist_id)

/-- Tier 0: `al.artist_id = soulsync_artist_id AND lower(al.title) = lower(album)`. -/
def tier0 (db : SSDB) (ss_id album_name : String) : Option String :=
  (db.tracks.find? (fun t =>
    match albumOf db t with
    | some al => al.artist_id == ss_id && sqlLower al.title == sqlLower album_name
    | none => false)).map (·.id)

/-- Tier 1a: `al.itunes_album_id = ?` exact album-ID match. -/
def tier1a (db : SSDB) (itunes_album_id : String) : Option String :=
  (db.tracks.find? (fun t =>
    match albumOf db t with
    | some al => optEq al.itunes_album_id itunes_album_id
    | none => false)).map (·.id)

/-- Tier 1b: `al.deezer_id = ?` exact album-ID match. -/
def tier1b (db : SSDB) (deezer_album_id : String) : Option String :=
  (db.tracks.find? (fun t =>
    match albumOf db t with
    | some al => optEq al.deezer_id deezer_album_id
    | none => false)).map (·.id)

/-- Tier 1c: `al.spotify_album_id = ?` exact album-ID match. -/
def tier1c (db : SSDB) (spotify_album_id : String) : Option String :=
  (db.tracks.find? (fun t =>
    match albumOf db t with
    | some al => optEq al.spotify_album_id spotify_album_id
    | none => false)).map (·.id)

/-- Tier 2a: `a.itunes_artist_id = ? AND lower(al.title) = lower(?)`. -/
def tier2a (db : SSDB) (itunes_artist_id album_name : String) : Option String :=
  (db.tracks.find? (fun t =>
    match artistOf db t, albumOf db t with
    | some a, some al =>
        optEq a.itunes_artist_id itunes_artist_id &&
        sqlLower al.title == sqlLower album_name
    | _, _ => false)).map (·.id)

/-- Tier 2b: `a.spotify_artist_id = ? AND lower(al.title) = lower(?)`. -/
def tier2b (db : SSDB) (spotify_artist_id album_name : String) : Option String :=
  (db.tracks.find? (fun t =>
    match artistOf db t, albumOf db t with
    | some a, some al =>
        optEq a.spotify_artist_id spotify_artist_id &&
        sqlLower al.title == sqlLower album_name
    | _, _ => false)).map (·.id)

/-- Tier 3: `lower(a.name) = lower(?) AND lower(al.title) = lower(?)`. -/
def tier3 (db : SSDB) (artist_name album_name : String) : Option String :=
  (db.tracks.find? (fun t =>
    match artistOf db t, albumOf db t with
    | some a, some al =>
        sqlLower a.name == sqlLower artist_name &&
        sqlLower al.title == sqlLower album_name
    | _, _ => false)).map (·.id)

/-- Sequential early-return over a list of query results: the Python pattern
`row = conn.execute(...); if row: return row[0]` repeated per tier. -/
def firstHit : List (Option String) → Option String
  | [] => none
  | o :: rest =>
      match o with
      | some v => some v
      | none => firstHit rest

/-- `soulsync_reader.check_album_owned`: guard `if not album_name: return None`,
then tiers 0, 1a, 1b, 1c, 2a, 2b, 3 in order, each gated on the truthiness of
its id parameter, returning the first row found.  `artist_name` and
`album_name` are `str | None` at the call sites, so both are `Option String`
here; tiers read the guarded value. -/
def check_album_owned (db : SSDB) (artist_name album_name : Option String)
    (soulsync_artist_id spotify_artist_id itunes_artist_id
     deezer_album_id spotify_album_id itunes_album_id : Option String) :
    Option String :=
  if !pyTruthy album_name then none
  else
    let an := album_name.getD ""
    firstHit
      [ if pyTruthy soulsync_artist_id then tier0 db (soulsync_artist_id.getD "") an else none
      , if pyTruthy itunes_album_id then tier1a db (itunes_album_id.getD "") else none
      , if pyTruthy deezer_album_id then tier1b db (deezer_album_id.getD "") else none
      , if pyTruthy spotify_album_id then tier1c db (spotify_album_id.getD "") else none
      , if pyTruthy itunes_artist_id then tier2a db (itunes_artist_id.getD "") an else none
      , if pyTruthy spotify_artist_id then tier2b db (spotify_artist_id.getD "") an else none
      , if pyTruthy artist_name then tier3 db (artist_name.getD "") an else none ]

end Rythmx

namespace Rythmx

/-- Fixture library for the tier-conflict scenario: the supplied iTunes album
ID "555" identifies track "T1", while the artist-name/album-title text match
identifies a different track "T2". -/
def conflictDB : SSDB :=
  { artists :=
      [ { id := "a9", name := "other", itunes_artist_id := none
          spotify_artist_id := none }
      , { id := "a1", name := "muse", itunes_artist_id := none
          spotify_artist_id := none } ]
    albums :=
      [ { id := "al1", artist_id := "a9", title := "zzz"
          itunes_album_id := some "555", deezer_id := none
          spotify_album_id := none }
      , { id := "al2", artist_id := "a1", title := "origin"
          itunes_album_id := none, deezer_id := none
          spotify_album_id := none } ]
    tracks :=
      [ { id := "T1", artist_id := "a9", album_id := "al1" }
      , { id := "T2", artist_id := "a1", album_id := "al2" } ] }

/-- C3: `check_album_owned` evaluates tiers 0, 1a, 1b, 1c, 2a, 2b, 3 in that
fixed order and the first tier yielding a row determines the result; in
particular, when a Tier-1 album-ID match and a Tier-3 text match would both
succeed but identify different tracks (and Tier 0 yields nothing), the
returned rating key is the Tier-1 one. -/
theorem c3_tier_priority (db : SSDB) (artist_name album_name : Option String)
    (ss sp it dz spa ita : Option String) :
    (check_album_owned db artist_name album_name ss sp it dz spa ita =
      if !pyTruthy album_name then none
      else
        ((if pyTruthy ss then tier0 db (ss.getD "") (album_name.getD "") else none) <|>
         (if pyTruthy ita then tier1a db (ita.getD "") else none) <|>
         (if pyTruthy dz then tier1b db (dz.getD "") else none) <|>
         (if pyTruthy spa then tier1c db (spa.getD "") else none) <|>
         (if pyTruthy it then tier2a db (it.getD "") (album_name.getD "") else none) <|>
         (if pyTruthy sp then tier2b db (sp.getD "") (album_name.getD "") else none) <|>
         (if pyTruthy artist_name then
            tier3 db (artist_name.getD "") (album_name.getD "") else none))) ∧
    (∀ t1 t3 : String, pyTruthy album_name = true →
      (if pyTruthy ss then tier0 db (ss.getD "") (album_name.getD "") else none) = none →
      ((if pyTruthy ita then tier1a db (ita.getD "") else none) <|>
       (if pyTruthy dz then tier1b db (dz.getD "") else none) <|>
       (if pyTruthy spa then tier1c db (spa.getD "") else none)) = some t1 →
      (if pyTruthy artist_name then
         tier3 db (artist_name.getD "") (album_name.getD "") else none) = some t3 →
      t1 ≠ t3 →
      check_album_owned db artist_name album_name ss sp it dz spa ita = some t1) := by
  constructor
  · by_cases ha : pyTruthy album_name
    · simp only [check_album_owned, ha, Bool.not_true, Bool.false_eq_true,
        if_false]
      cases h0 : (if pyTruthy ss then tier0 db (ss.getD "") (album_name.getD "") else none) <;>
        cases h1 : (if pyTruthy ita then tier1a db (ita.getD "") else none) <;>
          cases h2 : (if pyTruthy dz then tier1b db (dz.getD "") else none) <;>
            cases h3 : (if pyTruthy spa then tier1c db (spa.getD "") else none) <;>
              cases h4 : (if pyTruthy it then tier2a db (it.getD "") (album_name.getD "") else none) <;>
                cases h5 : (if pyTruthy sp then tier2b db (sp.getD "") (album_name.getD "") else none) <;>
                  cases h6 : (if pyTruthy artist_name then
                      tier3 db (artist_name.getD "") (album_name.getD "") else none) <;>
                    simp [firstHit, h0, h1, h2, h3, h4, h5, h6, Option.orElse]
    · simp [check_album_owned, ha]
  · intro t1 t3 ha h0 h1 _ _
    simp only [check_album_owned, ha, Bool.not_true, Bool.false_eq_true,
      if_false]
    cases hx1 : (if pyTruthy ita then tier1a db (ita.getD "") else none) with
    | some v =>
        rw [hx1] at h1
        simp only [Option.orElse, Option.some_orElse] at h1
        simp [firstHit, h0, hx1, h1]
    | none =>
        rw [hx1] at h1
        cases hx2 : (if pyTruthy dz then tier1b db (dz.getD "") else none) with
        | some v =>
            rw [hx2] at h1
            simp only [Option.none_orElse, Option.some_orElse] at h1
            simp [firstHit, h0, hx1, hx2, h1]
        | none =>
            rw [hx2] at h1
            simp only [Option.none_orElse] at h1
            simp [firstHit, h0, hx1, hx2, h1]

/-- C3 witness: on the conflict fixture, with iTunes album ID "555" supplied
and a Tier-3 text match available on a different track, the matcher returns
the Tier-1 track "T1" and not the Tier-3 track "T2". -/
theorem c3_tier_priority_witness :
    check_album_owned conflictDB (some "Muse") (some "Origin")
        none none none none none (some "555") = some "T1" :=
  (c3_tier_priority conflictDB (some "Muse") (some "Origin")
      none none none none none (some "555")).2 "T1" "T2"
    (by decide) (by decide) (by decide) (by decide) (by decide)

/-- C10: when `album_name` is `None` or the empty string, `check_album_owned`
returns `None` before any tier is consulted — the result does not depend on
the library contents or on any supplied provider album ID. -/
theorem c10_empty_album_unowned (db : SSDB) (artist_name album_name : Option String)
    (ss sp it dz spa ita : Option String)
    (h : album_name = none ∨ album_name = some "") :
    check_album_owned db artist_name album_name ss sp it dz spa ita = none := by
  rcases h with h | h <;> simp [check_album_owned, h, pyTruthy, String.isEmpty]

/-- C10 witness: on a library that contains album "origin" with iTunes album
ID "555", the call with a matching iTunes album ID but an empty album name is
still reported unowned. -/
theorem c10_empty_album_unowned_witness :
    check_album_owned conflictDB (some "Muse") (some "")
        none none none none none (some "555") = none ∧
    tier1a conflictDB "555" = some "T1" :=
  ⟨c10_empty_album_unowned conflictDB (some "Muse") (some "")
      none none none none none (some "555") (Or.inr rfl),
   by decide⟩

end Rythmx

namespace Rythmx

/-!  ## Artist identity cache — `cc_store.cache_artist`

One row of `artist_identity_cache`, keyed by `lastfm_name`; `cache_artist` is
the upsert `INSERT ... ON CONFLICT(lastfm_name) DO UPDATE SET` whose id
columns use `COALESCE(excluded.x, x)`, confidence and timestamp are always
overwritten, and `resolution_method` is coalesced.  The row for one artist is
`Option IdRow` (`none` = not yet cached), and a call's arguments are an
`IdWrite`. -/

/-- One `artist_identity_cache` row (without its key). -/
structure IdRow where
  deezer_artist_id : Option String
  spotify_artist_id : Option String
  itunes_artist_id : Option String
  mb_artist_id : Option String
  soulsync_artist_id : Option String
  confidence : Int
  resolution_method : Option String
  last_resolved_ts : Nat
  deriving Repr, DecidableEq

/-- The arguments of one `cache_artist` call (the excluded row of the upsert;
`last_resolved_ts` is the `int(time.time())` taken inside the call). -/
structure IdWrite where
  deezer_artist_id : Option String
  spotify_artist_id : Option String
  itunes_artist_id : Option String
  mb_artist_id : Option String
  soulsync_artist_id : Option String
  confidence : Int
  resolution_method : Option String
  last_resolved_ts : Nat
  deriving Repr, DecidableEq

/-- `cc_store.cache_artist` on the row of one artist: plain insert when the
row does not exist, otherwise the COALESCE merge of the ON CONFLICT clause. -/
def cache_artist (cur : Option IdRow) (w : IdWrite) : IdRow :=
  match cur with
  | none =>
      { deezer_artist_id := w.deezer_artist_id
        spotify_artist_id := w.spotify_artist_id
        itunes_artist_id := w.itunes_artist_id
        mb_artist_id := w.mb_artist_id
        soulsync_artist_id := w.soulsync_artist_id
        confidence := w.confidence
        resolution_method := w.resolution_method
        last_resolved_ts := w.last_resolved_ts }
  | some r =>
      { deezer_artist_id := w.deezer_artist_id <|> r.deezer_artist_id
        spotify_artist_id := w.spotify_artist_id <|> r.spotify_artist_id
        itunes_artist_id := w.itunes_artist_id <|> r.itunes_artist_id
        mb_artist_id := w.mb_artist_id <|> r.mb_artist_id
        soulsync_artist_id := w.soulsync_artist_id <|> r.soulsync_artist_id
        confidence := w.confidence
        resolution_method := w.resolution_method <|> r.resolution_method
        last_resolved_ts := w.last_resolved_ts }

/-- A sequence of `cache_artist` calls for the same artist, oldest first. -/
def applyWrites (st : Option IdRow) (ws : List IdWrite) : Option IdRow :=
  ws.foldl (fun s w => some (cache_artist s w)) st

/-- The most recent non-null value in a list of writes (oldest first). -/
def mostRecentSome : List (Option String) → Option String
  | [] => none
  | x :: xs => mostRecentSome xs <|> x

theorem option_orElse_assoc (a b c : Option String) :
    ((a <|> b) <|> c) = (a <|> (b <|> c)) := by
  cases a <;> rfl

theorem applyWrites_field (g : IdRow → Option String) (gw : IdWrite → Option String)
    (hg : ∀ st w, g (cache_artist st w) = (gw w <|> st.bind g)) :
    ∀ (ws : List IdWrite) (st : Option IdRow),
      (applyWrites st ws).bind g = (mostRecentSome (ws.map gw) <|> st.bind g) := by
  intro ws
  induction ws with
  | nil => intro st; simp [applyWrites, mostRecentSome]
  | cons w ws ih =>
      intro st
      have h1 : applyWrites st (w :: ws) = applyWrites (some (cache_artist st w)) ws := rfl
      rw [h1, ih]
      simp only [Option.some_bind, hg, List.map_cons, mostRecentSome]
      rw [option_orElse_assoc]

end Rythmx

namespace Rythmx

/-- C5: a `cache_artist` call passing `None` for a provider-identifier column
never clears a stored non-null value of that column, and after any sequence of
writes each stored identifier column holds the most recent non-null value ever
written for it (or NULL when none was). -/
theorem c5_identity_cache_additive_merge :
    (∀ (r : IdRow) (w : IdWrite) (v : String),
      (w.deezer_artist_id = none → r.deezer_artist_id = some v →
        (cache_artist (some r) w).deezer_artist_id = some v) ∧
      (w.spotify_artist_id = none → r.spotify_artist_id = some v →
        (cache_artist (some r) w).spotify_artist_id = some v) ∧
      (w.itunes_artist_id = none → r.itunes_artist_id = some v →
        (cache_artist (some r) w).itunes_artist_id = some v) ∧
      (w.mb_artist_id = none → r.mb_artist_id = some v →
        (cache_artist (some r) w).mb_artist_id = some v) ∧
      (w.soulsync_artist_id = none → r.soulsync_artist_id = some v →
        (cache_artist (some r) w).soulsync_artist_id = some v)) ∧
    (∀ ws : List IdWrite,
      (applyWrites none ws).bind (·.deezer_artist_id) =
        mostRecentSome (ws.map (·.deezer_artist_id)) ∧
      (applyWrites none ws).bind (·.spotify_artist_id) =
        mostRecentSome (ws.map (·.spotify_artist_id)) ∧
      (applyWrites none ws).bind (·.itunes_artist_id) =
        mostRecentSome (ws.map (·.itunes_artist_id)) ∧
      (applyWrites none ws).bind (·.mb_artist_id) =
        mostRecentSome (ws.map (·.mb_artist_id)) ∧
      (applyWrites none ws).bind (·.soulsync_artist_id) =
        mostRecentSome (ws.map (·.soulsync_artist_id))) := by
  constructor
  · intro r w v
    refine ⟨fun hw hr => ?_, fun hw hr => ?_, fun hw hr => ?_,
      fun hw hr => ?_, fun hw hr => ?_⟩ <;>
      simp [cache_artist, hw, hr]
  · intro ws
    refine ⟨?_, ?_, ?_, ?_, ?_⟩ <;>
      [ rw [applyWrites_field (·.deezer_artist_id) (·.deezer_artist_id)
          (fun st w => by cases st <;> simp [cache_artist])]
      ; rw [applyWrites_field (·.spotify_artist_id) (·.spotify_artist_id)
          (fun st w => by cases st <;> simp [cache_artist])]
      ; rw [applyWrites_field (·.itunes_artist_id) (·.itunes_artist_id)
          (fun st w => by cases st <;> simp [cache_artist])]
      ; rw [applyWrites_field (·.mb_artist_id) (·.mb_artist_id)
          (fun st w => by cases st <;> simp [cache_artist])]
      ; rw [applyWrites_field (·.soulsync_artist_id) (·.soulsync_artist_id)
          (fun st w => by cases st <;> simp [cache_artist])] ] <;>
      simp

/-- C5 witness: a write with only a Spotify id does not clear a previously
stored Deezer id, and over a concrete write sequence each column ends at its
most recent non-null value. -/
theorem c5_identity_cache_additive_merge_witness :
    (cache_artist
        (some { deezer_artist_id := some "d1", spotify_artist_id := none
                itunes_artist_id := none, mb_artist_id := none
                soulsync_artist_id := none, confidence := 80
                resolution_method := none, last_resolved_ts := 0 })
        { deezer_artist_id := none, spotify_artist_id := some "s1"
          itunes_artist_id := none, mb_artist_id := none
          soulsync_artist_id := none, confidence := 92
          resolution_method := some "name_only"
          last_resolved_ts := 5 }).deezer_artist_id = some "d1" ∧
    (applyWrites none
        [ { deezer_artist_id := some "d1", spotify_artist_id := none
            itunes_artist_id := none, mb_artist_id := none
            soulsync_artist_id := none, confidence := 80
            resolution_method := none, last_resolved_ts := 0 }
        , { deezer_artist_id := none, spotify_artist_id := some "s1"
            itunes_artist_id := none, mb_artist_id := none
            soulsync_artist_id := none, confidence := 92
            resolution_method := some "name_only"
            last_resolved_ts := 5 } ]).bind (·.deezer_artist_id) = some "d1" := by
  constructor
  · exact ((c5_identity_cache_additive_merge.1
      { deezer_artist_id := some "d1", spotify_artist_id := none
        itunes_artist_id := none, mb_artist_id := none
        soulsync_artist_id := none, confidence := 80
        resolution_method := none, last_resolved_ts := 0 }
      { deezer_artist_id := none, spotify_artist_id := some "s1"
        itunes_artist_id := none, mb_artist_id := none
        soulsync_artist_id := none, confidence := 92
        resolution_method := some "name_only"
        last_resolved_ts := 5 } "d1").1 rfl rfl)
  · rw [(c5_identity_cache_additive_merge.2
        [ { deezer_artist_id := some "d1", spotify_artist_id := none
            itunes_artist_id := none, mb_artist_id := none
            soulsync_artist_id := none, confidence := 80
            resolution_method := none, last_resolved_ts := 0 }
        , { deezer_artist_id := none, spotify_artist_id := some "s1"
            itunes_artist_id := none, mb_artist_id := none
            soulsync_artist_id := none, confidence := 92
            resolution_method := some "name_only"
            last_resolved_ts := 5 } ]).1]
    rfl

end Rythmx


namespace Rythmx

/-!  ## Acquisition queue — `cc_store.is_in_queue` / `add_to_queue` /
`update_queue_status`

`download_queue` is a list of rows in rowid (insertion) order, with
`UNIQUE(artist_name, album_title)` compared on the exact stored strings
(SQLite binary collation), while both lookups use `lower()`. -/

/-- A row of `download_queue` (columns used by queue logic and the worker). -/
structure QueueRow where
  id : Int
  artist_name : String
  album_title : String
  release_date : Option String
  kind : Option String
  source : Option String
  itunes_album_id : Option String
  deezer_album_id : Option String
  spotify_album_id : Option String
  status : String
  requested_by : String
  playlist_name : Option String
  provider_response : Option String
  created_at : Nat
  deriving Repr, DecidableEq

/-- `cc_store.is_in_queue`: a pending or submitted row for this
case-insensitive (artist, album) pair exists. -/
def is_in_queue (q : List QueueRow) (artist_name album_title : String) : Bool :=
  (q.find? (fun r =>
    sqlLower r.artist_name == sqlLower artist_name &&
    sqlLower r.album_title == sqlLower album_title &&
    (r.status == "pending" || r.status == "submitted"))).isSome

/-- `x or None` applied to the id arguments of `add_to_queue` before insert. -/
def optOrNone (o : Option String) : Option String :=
  if pyTruthy o then o else none

/-- The row the `INSERT OR IGNORE` of `add_to_queue` creates: status defaults
to `pending`, `created_at` to `CURRENT_TIMESTAMP`, ids passed as `x or None`. -/
def newQueueRow (next_id : Int) (now : Nat) (artist_name album_title : String)
    (release_date kind source itunes_album_id deezer_album_id
     spotify_album_id : Option String)
    (requested_by : String) (playlist_name : Option String) : QueueRow :=
  { id := next_id
    artist_name := artist_name
    album_title := album_title
    release_date := release_date
    kind := kind
    source := source
    itunes_album_id := optOrNone itunes_album_id
    deezer_album_id := optOrNone deezer_album_id
    spotify_album_id := optOrNone spotify_album_id
    status := "pending"
    requested_by := requested_by
    playlist_name := playlist_name
    provider_response := none
    created_at := now }

/-- `cc_store.add_to_queue`: `INSERT OR IGNORE` under the exact-string unique
key, then `SELECT id` by `lower()` match; returns the new queue plus the
fetched id (−1 when no row matches, as in the source). -/
def add_to_queue (q : List QueueRow) (next_id : Int) (now : Nat)
    (artist_name album_title : String)
    (release_date kind source itunes_album_id deezer_album_id
     spotify_album_id : Option String)
    (requested_by : String) (playlist_name : Option String) :
    List QueueRow × Int :=
  let q2 :=
    if q.any (fun r => r.artist_name == artist_name && r.album_title == album_title)
    then q
    else q ++ [newQueueRow next_id now artist_name album_title release_date
        kind source itunes_album_id deezer_album_id spotify_album_id
        requested_by playlist_name]
  match q2.find? (fun r =>
      sqlLower r.artist_name == sqlLower artist_name &&
      sqlLower r.album_title == sqlLower album_title) with
  | some r => (q2, r.id)
  | none => (q2, -1)

/-- `cc_store.update_queue_status`: set status, coalesce provider_response. -/
def update_queue_status (q : List QueueRow) (queue_id : Int) (status : String)
    (provider_response : Option String) : List QueueRow :=
  q.map (fun r =>
    if r.id == queue_id then
      { r with status := status
               provider_response := provider_response <|> r.provider_response }
    else r)

end Rythmx

namespace Rythmx

/-- C9: a pending/submitted row blocks (`is_in_queue` is true exactly when a
pending or submitted row for the case-insensitive pair exists, and a queue
whose rows are all `found`/`failed`/`skipped` never blocks); and on a queue
with no row for the pair, the first enqueue appends exactly one pending row
and returns its id, while a second enqueue of the same pair — the row still
`pending` — adds no second row, leaves the row unchanged and returns the same
id. -/
theorem c9_queue_dedup_and_blocking (q : List QueueRow)
    (artist_name album_title : String) (next_id next_id2 : Int) (now now2 : Nat)
    (rd k src i d s rd2 k2 src2 i2 d2 s2 : Option String)
    (rb rb2 : String) (pn pn2 : Option String) :
    (is_in_queue q artist_name album_title = true ↔
      ∃ r ∈ q, sqlLower r.artist_name = sqlLower artist_name ∧
        sqlLower r.album_title = sqlLower album_title ∧
        (r.status = "pending" ∨ r.status = "submitted")) ∧
    ((∀ r ∈ q, r.status = "found" ∨ r.status = "failed" ∨ r.status = "skipped") →
      is_in_queue q artist_name album_title = false) ∧
    ((∀ r ∈ q, ¬(sqlLower r.artist_name = sqlLower artist_name ∧
        sqlLower r.album_title = sqlLower album_title)) →
      add_to_queue q next_id now artist_name album_title rd k src i d s rb pn =
        (q ++ [newQueueRow next_id now artist_name album_title rd k src i d s rb pn],
         next_id) ∧
      add_to_queue
          (q ++ [newQueueRow next_id now artist_name album_title rd k src i d s rb pn])
          next_id2 now2 artist_name album_title rd2 k2 src2 i2 d2 s2 rb2 pn2 =
        (q ++ [newQueueRow next_id now artist_name album_title rd k src i d s rb pn],
         next_id)) := by
  refine ⟨?_, ?_, ?_⟩
  · constructor
    · intro h
      rw [is_in_queue, Option.isSome_iff_exists] at h
      obtain ⟨r, hr⟩ := h
      have hmem := List.mem_of_find?_eq_some hr
      have hp := List.find?_some hr
      simp only [Bool.and_eq_true, beq_iff_eq, Bool.or_eq_true] at hp
      exact ⟨r, hmem, hp.1.1, hp.1.2, hp.2⟩
    · rintro ⟨r, hmem, h1, h2, h3⟩
      rw [is_in_queue, Option.isSome_iff_exists]
      have hne : (q.find? (fun r =>
          sqlLower r.artist_name == sqlLower artist_name &&
          sqlLower r.album_title == sqlLower album_title &&
          (r.status == "pending" || r.status == "submitted"))) ≠ none := by
        intro hnone
        rw [List.find?_eq_none] at hnone
        have := hnone r hmem
        simp only [Bool.and_eq_true, beq_iff_eq, Bool.or_eq_true] at this
        exact this ⟨⟨h1, h2⟩, h3⟩
      obtain ⟨r2, hr2⟩ := Option.ne_none_iff_exists.mp hne
      exact ⟨r2, hr2.symm⟩
  · intro hterm
    rw [is_in_queue]
    have hnone : (q.find? (fun r =>
        sqlLower r.artist_name == sqlLower artist_name &&
        sqlLower r.album_title == sqlLower album_title &&
        (r.status == "pending" || r.status == "submitted"))) = none := by
      rw [List.find?_eq_none]
      intro r hmem
      rcases hterm r hmem with h | h | h <;>
        simp [h]
    rw [hnone]
    rfl
  · intro hnew
    have hfind : (q.find? (fun r =>
        sqlLower r.artist_name == sqlLower artist_name &&
        sqlLower r.album_title == sqlLower album_title)) = none := by
      rw [List.find?_eq_none]
      intro r hmem
      have := hnew r hmem
      simp only [Bool.and_eq_true, beq_iff_eq]
      tauto
    have hany : (q.any (fun r =>
        r.artist_name == artist_name && r.album_title == album_title)) = false := by
      rw [Bool.eq_false_iff]
      intro hq
      rw [List.any_eq_true] at hq
      obtain ⟨r, hmem, hr⟩ := hq
      simp only [Bool.and_eq_true, beq_iff_eq] at hr
      exact hnew r hmem ⟨by rw [hr.1], by rw [hr.2]⟩
    have key1 : add_to_queue q next_id now artist_name album_title rd k src i d s rb pn =
        (q ++ [newQueueRow next_id now artist_name album_title rd k src i d s rb pn],
         next_id) := by
      rw [add_to_queue]
      simp only [hany, Bool.false_eq_true, if_false, List.find?_append, hfind,
        Option.none_orElse]
      simp [List.find?, newQueueRow]
    refine ⟨key1, ?_⟩
    rw [add_to_queue]
    have hany2 : ((q ++ [newQueueRow next_id now artist_name album_title
        rd k src i d s rb pn]).any (fun r =>
          r.artist_name == artist_name && r.album_title == album_title)) = true := by
      rw [List.any_append]
      simp [newQueueRow]
    have hfind2 : ((q ++ [newQueueRow next_id now artist_name album_title
        rd k src i d s rb pn]).find? (fun r =>
          sqlLower r.artist_name == sqlLower artist_name &&
          sqlLower r.album_title == sqlLower album_title)) =
        some (newQueueRow next_id now artist_name album_title rd k src i d s rb pn) := by
      rw [List.find?_append, hfind]
      simp [List.find?, newQueueRow]
    simp only [hany2, if_true, hfind2]
    simp [newQueueRow]

/-- C9 witness: enqueueing ("Muse", "Origin") twice on an empty queue returns
id 1 both times and leaves exactly one pending row; a found row for the pair
does not block `is_in_queue` while a pending row does. -/
theorem c9_queue_dedup_and_blocking_witness :
    (add_to_queue [] 1 100 "Muse" "Origin" (some "2026-01-01") (some "album")
        (some "itunes") none none none "cc" none =
      ([newQueueRow 1 100 "Muse" "Origin" (some "2026-01-01") (some "album")
          (some "itunes") none none none "cc" none], 1)) ∧
    (add_to_queue
        [newQueueRow 1 100 "Muse" "Origin" (some "2026-01-01") (some "album")
          (some "itunes") none none none "cc" none]
        2 200 "Muse" "Origin" none none none none none none "cc" none =
      ([newQueueRow 1 100 "Muse" "Origin" (some "2026-01-01") (some "album")
          (some "itunes") none none none "cc" none], 1)) ∧
    is_in_queue
      [newQueueRow 1 100 "Muse" "Origin" (some "2026-01-01") (some "album")
        (some "itunes") none none none "cc" none] "Muse" "Origin" = true ∧
    is_in_queue
      [{ newQueueRow 1 100 "Muse" "Origin" (some "2026-01-01") (some "album")
          (some "itunes") none none none "cc" none with status := "found" }]
      "Muse" "Origin" = false := by
  have h := (c9_queue_dedup_and_blocking [] "Muse" "Origin" 1 2 100 200
      (some "2026-01-01") (some "album") (some "itunes") none none none
      none none none none none none "cc" "cc" none none).2.2
    (by intro r hr; cases hr)
  refine ⟨?_, ?_, by decide, ?_⟩
  · have := h.1
    simpa using this
  · have := h.2
    simpa using this
  · have h2 := (c9_queue_dedup_and_blocking
        [{ newQueueRow 1 100 "Muse" "Origin" (some "2026-01-01") (some "album")
            (some "itunes") none none none "cc" none with status := "found" }]
        "Muse" "Origin" 1 2 100 200
        (some "2026-01-01") (some "album") (some "itunes") none none none
        none none none none none none "cc" "cc" none none).2.1
    exact h2 (by intro r hr; simp at hr; subst hr; left; rfl)

end Rythmx

namespace Rythmx

/-!  ## Release cache — `cc_store.get_cached_releases` / `save_releases_to_cache`

`release_cache` rows are kept in a list keyed by
`UNIQUE(artist_name, source, album_title)`.  The `Release` objects exchanged
with these functions are modelled as Python attribute dictionaries
(`PyObj`), because the interesting behaviour here is attribute-level:
`cc_store` reads `r.is_upcoming` and constructs
`music_client.Release(..., is_upcoming=...)`, while the `Release` dataclass of
`app/music_client.py` declares no such field.  Attribute access on a missing
name is an `AttributeError`; a dataclass call with an unknown keyword is a
`TypeError`; both are `Except.error` here. -/

/-- A Python object as its attribute dictionary (all `Release` fields are
strings in the dataclass; the `is_upcoming` flag read by `cc_store` is
rendered as the strings "True"/"False"). -/
abbrev PyObj := List (String × String)

/-- The declared fields of the `Release` dataclass in `app/music_client.py`
(lines 60–70): there is no `is_upcoming` field. -/
def mcReleaseFields : List String :=
  ["artist", "title", "release_date", "kind", "source",
   "source_url", "deezer_album_id", "spotify_album_id", "itunes_album_id"]

/-- An instance of `music_client.Release`: attributes are exactly the
dataclass fields. -/
def mcRelease (artist title release_date kind source source_url
    deezer_album_id spotify_album_id itunes_album_id : String) : PyObj :=
  [("artist", artist), ("title", title), ("release_date", release_date),
   ("kind", kind), ("source", source), ("source_url", source_url),
   ("deezer_album_id", deezer_album_id),
   ("spotify_album_id", spotify_album_id),
   ("itunes_album_id", itunes_album_id)]

/-- Python attribute access `obj.name`: `AttributeError` when absent. -/
def getattr (o : PyObj) (a : String) : Except String String :=
  match o.lookup a with
  | some v => Except.ok v
  | none => Except.error ("AttributeError: Release object has no attribute " ++ a)

/-- Calling the `Release` dataclass with keyword arguments: a `TypeError`
when any keyword is not a declared field, else the constructed instance
(absent optional fields default to `""`). -/
def mkRelease (kwargs : PyObj) : Except String PyObj :=
  if kwargs.any (fun kv => !(mcReleaseFields.contains kv.1)) then
    Except.error "TypeError: Release() got an unexpected keyword argument"
  else
    Except.ok (mcReleaseFields.map (fun f => (f, ((kwargs.lookup f).getD ""))))

/-- A row of the `release_cache` table. -/
structure ReleaseCacheRow where
  artist_name : String
  source : String
  album_title : String
  release_date : Option String
  kind : Option String
  itunes_album_id : Option String
  deezer_album_id : Option String
  spotify_album_id : Option String
  is_upcoming : Int
  cached_at : Nat
  deriving Repr, DecidableEq

/-- Python `s or None` on an attribute string. -/
def strOrNone (s : String) : Option String :=
  if s.isEmpty then none else some s

/-- Python `o or dflt` on a nullable column value. -/
def colOr (o : Option String) (dflt : String) : String :=
  match o with
  | none => dflt
  | some s => if s.isEmpty then dflt else s

/-- Upsert one release row on the `(artist_name, source, album_title)` key:
`release_date`, `kind`, `is_upcoming`, `cached_at` are overwritten, the three
album ids are coalesced with the stored values. -/
def upsertReleaseRow (cache : List ReleaseCacheRow) (row : ReleaseCacheRow) :
    List ReleaseCacheRow :=
  if cache.any (fun r => r.artist_name == row.artist_name &&
      r.source == row.source && r.album_title == row.album_title) then
    cache.map (fun r =>
      if r.artist_name == row.artist_name && r.source == row.source &&
          r.album_title == row.album_title then
        { r with release_date := row.release_date
                 kind := row.kind
                 itunes_album_id := row.itunes_album_id <|> r.itunes_album_id
                 deezer_album_id := row.deezer_album_id <|> r.deezer_album_id
                 spotify_album_id := row.spotify_album_id <|> r.spotify_album_id
                 is_upcoming := row.is_upcoming
                 cached_at := row.cached_at }
      else r)
  else cache ++ [row]

/-- The sentinel upsert of `save_releases_to_cache` for an empty release
list: key `(artist, 'sentinel', '')`, refreshing `cached_at` on conflict. -/
def upsertSentinelRow (now : Nat) (cache : List ReleaseCacheRow)
    (artist_name : String) : List ReleaseCacheRow :=
  if cache.any (fun r => r.artist_name == artist_name &&
      r.source == "sentinel" && r.album_title == "") then
    cache.map (fun r =>
      if r.artist_name == artist_name && r.source == "sentinel" &&
          r.album_title == "" then
        { r with cached_at := now }
      else r)
  else cache ++
    [{ artist_name := artist_name, source := "sentinel", album_title := ""
       release_date := none, kind := none, itunes_album_id := none
       deezer_album_id := none, spotify_album_id := none
       is_upcoming := 0, cached_at := now }]

/-- The per-release loop body of `save_releases_to_cache`: reads the object's
attributes in the order of the SQL parameter tuple, then upserts.  The read
of `r.is_upcoming` is where a `music_client.Release` raises. -/
def saveReleaseRows (now : Nat) (artist_name : String) :
    List ReleaseCacheRow → List PyObj → Except String (List ReleaseCacheRow)
  | cache, [] => Except.ok cache
  | cache, r :: rest => do
      let src ← getattr r "source"
      let title ← getattr r "title"
      let rdate ← getattr r "release_date"
      let kind ← getattr r "kind"
      let itunes ← getattr r "itunes_album_id"
      let deezer ← getattr r "deezer_album_id"
      let spotify ← getattr r "spotify_album_id"
      let upc ← getattr r "is_upcoming"
      saveReleaseRows now artist_name
        (upsertReleaseRow cache
          { artist_name := artist_name, source := src, album_title := title
            release_date := some rdate, kind := some kind
            itunes_album_id := strOrNone itunes
            deezer_album_id := strOrNone deezer
            spotify_album_id := strOrNone spotify
            is_upcoming := if upc == "True" then 1 else 0
            cached_at := now })
        rest

/-- `cc_store.save_releases_to_cache`: sentinel row for an empty list, else
one upsert per release.  A raised exception rolls the transaction back, so an
`Except.error` leaves the cache unchanged. -/
def save_releases_to_cache (now : Nat) (cache : List ReleaseCacheRow)
    (artist_name : String) (releases : List PyObj) :
    Except String (List ReleaseCacheRow) :=
  if releases.isEmpty then
    Except.ok (upsertSentinelRow now cache artist_name)
  else
    saveReleaseRows now artist_name cache releases

/-- The `Release(...)` construction in the list comprehension of
`get_cached_releases`, keyword for keyword — including `is_upcoming`. -/
def cachedRowToRelease (artist_name : String) (r : ReleaseCacheRow) :
    Except String PyObj :=
  mkRelease
    [("artist", artist_name), ("title", r.album_title),
     ("release_date", (r.release_date.getD "")),
     ("kind", colOr r.kind "album"), ("source", r.source),
     ("itunes_album_id", (r.itunes_album_id.getD "")),
     ("deezer_album_id", (r.deezer_album_id.getD "")),
     ("spotify_album_id", (r.spotify_album_id.getD "")),
     ("is_upcoming", if r.is_upcoming == 0 then "False" else "True")]

/-- The list comprehension of `get_cached_releases`: left to right, first
raise aborts. -/
def buildReleases (artist_name : String) :
    List ReleaseCacheRow → Except String (List PyObj)
  | [] => Except.ok []
  | r :: rest => do
      let obj ← cachedRowToRelease artist_name r
      let objs ← buildReleases artist_name rest
      pure (obj :: objs)

/-- `cc_store.get_cached_releases`: `None` when the artist has no rows or the
newest row is older than `max_age_days`, else the non-sentinel rows turned
into `Release` objects (`[]` when only the sentinel is present). -/
def get_cached_releases (now : Nat) (cache : List ReleaseCacheRow)
    (artist_name : String) (max_age_days : Nat) :
    Except String (Option (List PyObj)) :=
  let rows := cache.filter (fun r => r.artist_name == artist_name)
  if rows.isEmpty then Except.ok none
  else
    let maxTs := (rows.map (·.cached_at)).foldl max 0
    if now - maxTs > max_age_days * 86400 then Except.ok none
    else do
      let objs ← buildReleases artist_name
        (rows.filter (fun r => r.source != "sentinel"))
      pure (some objs)

end Rythmx

namespace Rythmx

/-- C4: the miss and hit-empty legs of the release-cache contract hold, but
the hit-results leg fails on the code — `get(artist)` before any save is a
miss, and after `save(artist, [])` it is a hit-empty `[]`; but
`save_releases_to_cache(artist, [r1])` with a `music_client.Release` raises
`AttributeError` on `r.is_upcoming` (the dataclass has no such field), and
symmetrically `get_cached_releases` raises `TypeError` as soon as a real
(non-sentinel) fresh row must be turned into a `Release`, so a hit with
results is never returned. -/
theorem c4_release_cache_upcoming_field_missing :
    get_cached_releases 1000 [] "muse" 7 = Except.ok none ∧
    save_releases_to_cache 500 [] "muse" [] =
      Except.ok [{ artist_name := "muse", source := "sentinel", album_title := ""
                   release_date := none, kind := none, itunes_album_id := none
                   deezer_album_id := none, spotify_album_id := none
                   is_upcoming := 0, cached_at := 500 }] ∧
    get_cached_releases 1000
        [{ artist_name := "muse", source := "sentinel", album_title := ""
           release_date := none, kind := none, itunes_album_id := none
           deezer_album_id := none, spotify_album_id := none
           is_upcoming := 0, cached_at := 500 }] "muse" 7 =
      Except.ok (some []) ∧
    save_releases_to_cache 500 [] "muse"
        [mcRelease "Muse" "Fireworks" "2026-01-01" "album" "itunes" "" "" "" "555"] =
      Except.error "AttributeError: Release object has no attribute is_upcoming" ∧
    get_cached_releases 1000
        [{ artist_name := "muse", source := "itunes", album_title := "Fireworks"
           release_date := some "2026-01-01", kind := some "album"
           itunes_album_id := some "555", deezer_album_id := none
           spotify_album_id := none, is_upcoming := 0, cached_at := 500 }]
        "muse" 7 =
      Except.error "TypeError: Release() got an unexpected keyword argument" ∧
    mcReleaseFields.contains "is_upcoming" = false := by
  refine ⟨rfl, rfl, rfl, rfl, rfl, by decide⟩

end Rythmx

namespace Rythmx

/-!  ## Provider release fetchers — `app/music_client.py`

The per-item filtering of `_itunes_get_releases`, `_deezer_get_releases`,
`_mb_get_releases` and `_spotify_get_releases` is modelled on the already
fetched API items (the HTTP/paging layer around them contributes no
filtering).  Dates stay the `YYYY-MM-DD` strings of the payloads;
`datetime.strptime(s, "%Y-%m-%d")` success is `parseYMD` (digit/dash shape;
in-range month/day validity is not modelled), and comparisons of the parsed
`datetime` values coincide with lexicographic string comparison on this
shape.  `cutoff` is `utcnow() - timedelta(days=days_ago)` and `now` is the
`datetime.utcnow()` of the fetch, both as date strings. -/

/-- Release value produced by the fetchers (the dataclass of
`app/music_client.py`, field for field). -/
structure Release where
  artist : String
  title : String
  release_date : String
  kind : String
  source : String
  source_url : String
  deezer_album_id : String
  spotify_album_id : String
  itunes_album_id : String
  deriving Repr, DecidableEq

/-- Shape check for `YYYY-MM-DD`. -/
def isYMDChars : List Char → Bool
  | [y1, y2, y3, y4, h1, m1, m2, h2, d1, d2] =>
      y1.isDigit && y2.isDigit && y3.isDigit && y4.isDigit &&
      h1 == '-' && m1.isDigit && m2.isDigit && h2 == '-' &&
      d1.isDigit && d2.isDigit
  | _ => false

/-- `datetime.strptime(s, "%Y-%m-%d")`: the parsed date, kept as its string. -/
def parseYMD (s : String) : Option String :=
  if isYMDChars s.data then some s else none

/-- Python `s.endswith(suffix)`. -/
def strEndsWith (suffix_ s : String) : Bool := suffix_.data.isSuffixOf s.data

/-- One item of the iTunes `/lookup` payload (fields read by the fetcher). -/
structure ItunesItem where
  wrapperType : String
  releaseDate : String
  collectionName : String
  collectionType : Option String
  artistName : String
  collectionViewUrl : String
  collectionId : String
  deriving Repr, DecidableEq

/-- The per-item body of the `_itunes_get_releases` loop: skip non-albums,
unparsable dates, dates before the cutoff or after now (the future filter),
ignore-keyword titles; reclassify ambiguous "album" rows by title suffix;
coerce an unknown kind to "album" when albums are allowed, else skip. -/
def itunesItemToRelease (cutoff now : String) (allowed_kinds ignore_kw : List String)
    (item : ItunesItem) : Option Release :=
  if item.wrapperType != "collection" then none
  else if item.releaseDate.isEmpty then none
  else
    match parseYMD (item.releaseDate.take 10) with
    | none => none
    | some rel_date =>
      if strLt rel_date cutoff then none
      else if strGt rel_date now then none
      else
        let title := item.collectionName
        if ignore_kw.any (fun kw => strIn kw (sqlLower title)) then none
        else
          let kind0 := sqlLower (item.collectionType.getD "album")
          let lower_title := sqlLower title
          let kind1 :=
            if kind0 == "album" then
              if strIn "- single" lower_title || strEndsWith " single" lower_title
              then "single"
              else if strIn " - ep" lower_title || strEndsWith " ep" lower_title
              then "ep"
              else kind0
            else kind0
          let emit := fun (kind2 : String) => some
            { artist := item.artistName, title := title
              release_date := rel_date, kind := kind2
              source := "itunes", source_url := item.collectionViewUrl
              deezer_album_id := "", spotify_album_id := ""
              itunes_album_id := item.collectionId }
          if allowed_kinds.contains kind1 then emit kind1
          else if allowed_kinds.contains "album" then emit "album"
          else none

/-- `music_client._itunes_get_releases` over the fetched payload items. -/
def _itunes_get_releases (items : List ItunesItem) (cutoff now : String)
    (allowed_kinds ignore_kw : List String) : List Release :=
  items.filterMap (itunesItemToRelease cutoff now allowed_kinds ignore_kw)

/-- One album of the Deezer `/artist/{id}/albums` payload. -/
structure DeezerAlbum where
  release_date : String
  title : String
  record_type : Option String
  artist_name : String
  link : String
  id : String
  deriving Repr, DecidableEq

/-- The per-album body of the `_deezer_get_releases` loop: skip empty or
unparsable dates, dates before the cutoff or after now (the future filter),
ignore-keyword titles, and kinds outside the allowed set. -/
def deezerAlbumToRelease (cutoff now : String) (allowed_kinds ignore_kw : List String)
    (album : DeezerAlbum) : Option Release :=
  if album.release_date.isEmpty then none
  else
    match parseYMD album.release_date with
    | none => none
    | some rel_date =>
      if strLt rel_date cutoff then none
      else if strGt rel_date now then none
      else
        let title := album.title
        if ignore_kw.any (fun kw => strIn kw (sqlLower title)) then none
        else
          let kind := sqlLower (album.record_type.getD "album")
          if !(allowed_kinds.contains kind) then none
          else some
            { artist := album.artist_name, title := title
              release_date := rel_date, kind := kind
              source := "deezer", source_url := album.link
              deezer_album_id := album.id, spotify_album_id := ""
              itunes_album_id := "" }

/-- `music_client._deezer_get_releases` over the fetched payload albums. -/
def _deezer_get_releases (albums : List DeezerAlbum) (cutoff now : String)
    (allowed_kinds ignore_kw : List String) : List Release :=
  albums.filterMap (deezerAlbumToRelease cutoff now allowed_kinds ignore_kw)

/-- One release of the MusicBrainz `/release` payload. -/
structure MBReleaseItem where
  date : String
  title : String
  primary_type : Option String
  id : String
  deriving Repr, DecidableEq

/-- The per-release body of the `_mb_get_releases` loop: skip short or
unparsable dates, dates before the cutoff, ignore-keyword titles and
disallowed kinds.  There is no upper bound against "now". -/
def mbItemToRelease (cutoff : String) (allowed_kinds ignore_kw : List String)
    (rel : MBReleaseItem) : Option Release :=
  if rel.date.isEmpty || rel.date.length < 10 then none
  else
    match parseYMD (rel.date.take 10) with
    | none => none
    | some rel_date =>
      if strLt rel_date cutoff then none
      else
        let title := rel.title
        if ignore_kw.any (fun kw => strIn kw (sqlLower title)) then none
        else
          let kind := sqlLower (rel.primary_type.getD "album")
          if !(allowed_kinds.contains kind) then none
          else some
            { artist := "", title := title
              release_date := rel_date, kind := kind
              source := "musicbrainz"
              source_url := "https://musicbrainz.org/release/" ++ rel.id
              deezer_album_id := "", spotify_album_id := ""
              itunes_album_id := "" }

/-- `music_client._mb_get_releases` over the fetched payload releases. -/
def _mb_get_releases (rels : List MBReleaseItem) (cutoff : String)
    (allowed_kinds ignore_kw : List String) : List Release :=
  rels.filterMap (mbItemToRelease cutoff allowed_kinds ignore_kw)

/-- One album of the Spotify `artist_albums` payload. -/
structure SpotifyAlbum where
  release_date : String
  name : String
  album_type : Option String
  spotify_url : String
  id : String
  deriving Repr, DecidableEq

/-- The per-album body of the `_spotify_get_releases` loop: skip empty dates
and dates below `cutoff_str` (a plain string comparison — no parsing and no
upper bound against "now"), ignore-keyword titles and disallowed kinds. -/
def spotifyAlbumToRelease (name cutoff_str : String)
    (allowed_kinds ignore_kw : List String) (album : SpotifyAlbum) :
    Option Release :=
  if album.release_date.isEmpty || strLt album.release_date cutoff_str then none
  else
    let title := album.name
    if ignore_kw.any (fun kw => strIn kw (sqlLower title)) then none
    else
      let kind := sqlLower (album.album_type.getD "album")
      if !(allowed_kinds.contains kind) then none
      else some
        { artist := name, title := title
          release_date := album.release_date, kind := kind
          source := "spotify", source_url := album.spotify_url
          deezer_album_id := "", spotify_album_id := album.id
          itunes_album_id := "" }

/-- `music_client._spotify_get_releases` over the fetched payload albums. -/
def _spotify_get_releases (name : String) (albums : List SpotifyAlbum)
    (cutoff_str : String) (allowed_kinds ignore_kw : List String) :
    List Release :=
  albums.filterMap (spotifyAlbumToRelease name cutoff_str allowed_kinds ignore_kw)

end Rythmx

namespace Rythmx

/-- C8 counterexample: the Spotify and MusicBrainz fetchers do not filter
future-dated releases.  A Spotify album and a MusicBrainz release dated
2999-01-01 pass the filters of a discovery performed on 2026-10-12 and are
returned to the pipeline with their future date. -/
theorem c8_counterexample :
    (_spotify_get_releases "X"
        [{ release_date := "2999-01-01", name := "Future"
           album_type := some "album", spotify_url := "", id := "sp1" }]
        "2026-09-12" ["album", "single", "ep"] []).any
        (fun r => strGt r.release_date "2026-10-12") = true ∧
    (_mb_get_releases
        [{ date := "2999-01-01", title := "Future"
           primary_type := some "album", id := "m1" }]
        "2026-09-12" ["album", "single", "ep"] []).any
        (fun r => strGt r.release_date "2026-10-12") = true := by
  constructor <;> decide

/-- C8 amended: only the iTunes and Deezer fetchers filter out releases dated
after "now"; every release they return has a release date not later than the
time of discovery, while `_spotify_get_releases` and `_mb_get_releases` apply
no such upper bound (see the counterexample). -/
theorem c8_itunes_deezer_filter_future (cutoff now : String)
    (allowed_kinds ignore_kw : List String) :
    (∀ (items : List ItunesItem) (r : Release),
      r ∈ _itunes_get_releases items cutoff now allowed_kinds ignore_kw →
      strGt r.release_date now = false) ∧
    (∀ (albums : List DeezerAlbum) (r : Release),
      r ∈ _deezer_get_releases albums cutoff now allowed_kinds ignore_kw →
      strGt r.release_date now = false) := by
  constructor
  · intro items r hmem
    rw [_itunes_get_releases, List.mem_filterMap] at hmem
    obtain ⟨item, _, hfa⟩ := hmem
    simp only [itunesItemToRelease] at hfa
    split at hfa
    · exact absurd hfa (by simp)
    split at hfa
    · exact absurd hfa (by simp)
    split at hfa
    · exact absurd hfa (by simp)
    rename_i rel_date heq
    split at hfa
    · exact absurd hfa (by simp)
    split at hfa
    · exact absurd hfa (by simp)
    rename_i hfut
    repeat' split at hfa
    all_goals
      first
      | (rw [Option.some.injEq] at hfa
         rw [← hfa]
         exact Bool.eq_false_iff.mpr hfut)
      | simp at hfa
  · intro albums r hmem
    rw [_deezer_get_releases, List.mem_filterMap] at hmem
    obtain ⟨album, _, hfa⟩ := hmem
    simp only [deezerAlbumToRelease] at hfa
    split at hfa
    · exact absurd hfa (by simp)
    split at hfa
    · exact absurd hfa (by simp)
    rename_i rel_date heq
    split at hfa
    · exact absurd hfa (by simp)
    split at hfa
    · exact absurd hfa (by simp)
    rename_i hfut
    repeat' split at hfa
    all_goals
      first
      | (rw [Option.some.injEq] at hfa
         rw [← hfa]
         exact Bool.eq_false_iff.mpr hfut)
      | simp at hfa

/-- C8 witness: a concrete iTunes payload holding one past and one future
collection yields the past release, whose date is not later than now. -/
theorem c8_itunes_deezer_filter_future_witness :
    (⟨"X", "Past", "2026-10-01", "album", "itunes", "", "", "", "1"⟩ : Release) ∈
      _itunes_get_releases
        [ { wrapperType := "collection", releaseDate := "2026-10-01T07:00:00Z"
            collectionName := "Past", collectionType := some "Album"
            artistName := "X", collectionViewUrl := "", collectionId := "1" }
        , { wrapperType := "collection", releaseDate := "2999-01-01T07:00:00Z"
            collectionName := "Future", collectionType := some "Album"
            artistName := "X", collectionViewUrl := "", collectionId := "2" } ]
        "2026-09-12" "2026-10-12" ["album", "single", "ep"] [] ∧
    strGt (⟨"X", "Past", "2026-10-01", "album", "itunes", "", "", "",
        "1"⟩ : Release).release_date "2026-10-12" = false :=
  ⟨by decide,
   (c8_itunes_deezer_filter_future "2026-09-12" "2026-10-12"
      ["album", "single", "ep"] []).1
    [ { wrapperType := "collection", releaseDate := "2026-10-01T07:00:00Z"
        collectionName := "Past", collectionType := some "Album"
        artistName := "X", collectionViewUrl := "", collectionId := "1" }
    , { wrapperType := "collection", releaseDate := "2999-01-01T07:00:00Z"
        collectionName := "Future", collectionType := some "Album"
        artistName := "X", collectionViewUrl := "", collectionId := "2" } ]
    ⟨"X", "Past", "2026-10-01", "album", "itunes", "", "", "", "1"⟩ (by decide)⟩

end Rythmx

namespace Rythmx

/-!  ## Release discovery chain — `music_client.get_new_releases_for_artist`

The chain is modelled with the provider calls as oracles and an explicit
operation trace, so that which external operations a call performs is itself
a value: `DiscOp` can express release-cache reads and writes
(`cc_store.get_cached_releases` / `save_releases_to_cache`) as well as
provider calls, and the translated function records every operation it makes.
The per-provider fetch arguments that only shape the fetched payload
(cutoff, allowed kinds, ignore keywords) are absorbed into the oracles; the
id-resolution and fallthrough logic is translated statement by statement.
`cached_ids` is the dict from `cc_store.get_cached_artist`, whose values can
be `None`. -/

/-- An external operation the discovery chain can perform. -/
inductive DiscOp where
  | cacheGet (artist : String)
  | cacheSave (artist : String)
  | spotifyFetch (artist : String)
  | itunesSearch (artist : String)
  | itunesFetch (id : String)
  | deezerSearch (artist : String)
  | deezerFetch (id : String)
  | mbResolve (spotify_id : String)
  | mbSearch (artist : String)
  | mbFetch (id : String)
  deriving Repr, DecidableEq

/-- Is this operation a release-cache interaction? -/
def DiscOp.isCacheOp : DiscOp → Bool
  | DiscOp.cacheGet _ => true
  | DiscOp.cacheSave _ => true
  | _ => false

/-- The provider oracle functions behind the chain. -/
structure DiscProviders where
  spotify_available : Bool
  spotifyFetch : String → Option String → List Release
  itunesSearch : String → Option String
  itunesFetch : String → List Release
  deezerSearch : String → Option String
  deezerFetch : String → List Release
  mbResolve : String → Option String
  mbSearch : String → Option String
  mbFetch : String → List Release

/-- A Python dict with nullable string values, in insertion order. -/
abbrev PyDict := List (String × Option String)

/-- `d.get(k)` — `None` both for a missing key and a stored `None`. -/
def dictGet (d : PyDict) (k : String) : Option String :=
  match d.find? (fun kv => kv.1 == k) with
  | some kv => kv.2
  | none => none

/-- `d[k] = v` — replace in place or append. -/
def dictSet (d : PyDict) (k : String) (v : Option String) : PyDict :=
  if d.any (fun kv => kv.1 == k) then
    d.map (fun kv => if kv.1 == k then (k, v) else kv)
  else d ++ [(k, v)]

/-- The MusicBrainz block of `get_new_releases_for_artist` (explicit
provider only) plus the final fallthrough `return [], ids`. -/
def mbBlock (ps : DiscProviders) (provider artist_name : String)
    (sp_id : Option String) (ids : PyDict) (tr : List DiscOp) :
    List Release × PyDict × List DiscOp :=
  let mbTried := provider == "musicbrainz"
  let mb_id0 := dictGet ids "mb_artist_id"
  let mbResolved := mbTried && !pyTruthy mb_id0 && pyTruthy sp_id
  let mb_id1 := if mbResolved then ps.mbResolve (sp_id.getD "") else mb_id0
  let tr6 := tr ++ (if mbResolved then [DiscOp.mbResolve (sp_id.getD "")] else [])
  let mbSearched := mbTried && !pyTruthy mb_id1
  let mb_id := if mbSearched then ps.mbSearch artist_name else mb_id1
  let tr7 := tr6 ++ (if mbSearched then [DiscOp.mbSearch artist_name] else [])
  let mbHasId := mbTried && pyTruthy mb_id
  let ids4 := if mbHasId then dictSet ids "mb_artist_id" mb_id else ids
  let tr8 := tr7 ++ (if mbHasId then [DiscOp.mbFetch (mb_id.getD "")] else [])
  if mbHasId then (ps.mbFetch (mb_id.getD ""), ids4, tr8)
  else ([], ids4, tr8)

/-- The Deezer block of `get_new_releases_for_artist`. -/
def deezerBlock (ps : DiscProviders) (provider artist_name : String)
    (sp_id : Option String) (ids : PyDict) (tr : List DiscOp) :
    List Release × PyDict × List DiscOp :=
  let dzTried := provider == "deezer" || provider == "auto"
  let dz_id0 := dictGet ids "deezer_artist_id"
  let dzSearched := dzTried && !pyTruthy dz_id0
  let dz_id := if dzSearched then ps.deezerSearch artist_name else dz_id0
  let tr4 := tr ++ (if dzSearched then [DiscOp.deezerSearch artist_name] else [])
  let dzHasId := dzTried && pyTruthy dz_id
  let ids3 := if dzHasId then dictSet ids "deezer_artist_id" dz_id else ids
  let dzReleases := if dzHasId then ps.deezerFetch (dz_id.getD "") else []
  let tr5 := tr4 ++ (if dzHasId then [DiscOp.deezerFetch (dz_id.getD "")] else [])
  if dzHasId && !dzReleases.isEmpty then (dzReleases, ids3, tr5)
  else if dzTried && provider == "deezer" then ([], ids3, tr5)
  else mbBlock ps provider artist_name sp_id ids3 tr5

/-- The iTunes block of `get_new_releases_for_artist`. -/
def itunesBlock (ps : DiscProviders) (provider artist_name : String)
    (sp_id : Option String) (ids : PyDict) (tr : List DiscOp) :
    List Release × PyDict × List DiscOp :=
  let itTried := provider == "itunes" || provider == "auto"
  let it_id0 := dictGet ids "itunes_artist_id"
  let itSearched := itTried && !pyTruthy it_id0
  let it_id := if itSearched then ps.itunesSearch artist_name else it_id0
  let tr2 := tr ++ (if itSearched then [DiscOp.itunesSearch artist_name] else [])
  let itHasId := itTried && pyTruthy it_id
  let ids2 := if itHasId then dictSet ids "itunes_artist_id" it_id else ids
  let itReleases := if itHasId then ps.itunesFetch (it_id.getD "") else []
  let tr3 := tr2 ++ (if itHasId then [DiscOp.itunesFetch (it_id.getD "")] else [])
  if itHasId && !itReleases.isEmpty then (itReleases, ids2, tr3)
  else if itTried && provider == "itunes" then ([], ids2, tr3)
  else deezerBlock ps provider artist_name sp_id ids2 tr3

/-- `music_client.get_new_releases_for_artist`: reuse cached ids, else search;
Spotify → iTunes → Deezer in `auto` mode, MusicBrainz only when selected
explicitly; stop at the first provider with a non-empty result.  Returns
(releases, resolved ids, operation trace). -/
def get_new_releases_for_artist (ps : DiscProviders) (provider : String)
    (artist_name : String) (cached_ids : PyDict)
    (spotify_artist_id : Option String) :
    List Release × PyDict × List DiscOp :=
  let ids0 := cached_ids
  let sp_id := pyOr spotify_artist_id (dictGet ids0 "spotify_artist_id")
  let ids1 := if pyTruthy sp_id then dictSet ids0 "spotify_artist_id" sp_id else ids0
  let spTried := (provider == "spotify" || provider == "auto") && ps.spotify_available
  let spReleases := if spTried then ps.spotifyFetch artist_name sp_id else []
  let tr1 := if spTried then [DiscOp.spotifyFetch artist_name] else []
  if spTried && !spReleases.isEmpty then (spReleases, ids1, tr1)
  else if spTried && provider == "spotify" then ([], ids1, tr1)
  else itunesBlock ps provider artist_name sp_id ids1 tr1

/-- The parameter names of `music_client.get_new_releases_for_artist`
(source lines 507–513): there is no `force_refresh` parameter and no
`**kwargs`. -/
def mcGetNewReleasesParams : List String :=
  ["artist_name", "days_ago", "ignore_keywords", "cached_ids",
   "spotify_artist_id"]

/-- The keyword arguments `scheduler._execute_cycle` passes at its call of
`music_client.get_new_releases_for_artist` (scheduler.py lines 160–167). -/
def schedulerDiscoveryKwargs : List String :=
  ["artist_name", "days_ago", "ignore_keywords", "cached_ids",
   "spotify_artist_id", "force_refresh"]

/-- A Python call binds without `TypeError` only when every keyword argument
names a declared parameter. -/
def pyCallAccepted (params kwargs : List String) : Bool :=
  kwargs.all (params.contains ·)

/-- Oracle instance for a concrete run: Spotify unconfigured, iTunes search
resolves "Soulive" to id 111 with one release. -/
def demoProviders : DiscProviders :=
  { spotify_available := false
    spotifyFetch := fun _ _ => []
    itunesSearch := fun _ => some "111"
    itunesFetch := fun _ =>
      [{ artist := "Soulive", title := "Flowers", release_date := "2026-03-01"
         kind := "album", source := "itunes", source_url := ""
         deezer_album_id := "", spotify_album_id := ""
         itunes_album_id := "901" }]
    deezerSearch := fun _ => none
    deezerFetch := fun _ => []
    mbResolve := fun _ => none
    mbSearch := fun _ => none
    mbFetch := fun _ => [] }

end Rythmx

namespace Rythmx

@[simp] theorem isCacheOp_spotifyFetch (a : String) :
    (DiscOp.spotifyFetch a).isCacheOp = false := rfl

@[simp] theorem isCacheOp_itunesSearch (a : String) :
    (DiscOp.itunesSearch a).isCacheOp = false := rfl

@[simp] theorem isCacheOp_itunesFetch (i : String) :
    (DiscOp.itunesFetch i).isCacheOp = false := rfl

@[simp] theorem isCacheOp_deezerSearch (a : String) :
    (DiscOp.deezerSearch a).isCacheOp = false := rfl

@[simp] theorem isCacheOp_deezerFetch (i : String) :
    (DiscOp.deezerFetch i).isCacheOp = false := rfl

@[simp] theorem isCacheOp_mbResolve (i : String) :
    (DiscOp.mbResolve i).isCacheOp = false := rfl

@[simp] theorem isCacheOp_mbSearch (a : String) :
    (DiscOp.mbSearch a).isCacheOp = false := rfl

@[simp] theorem isCacheOp_mbFetch (i : String) :
    (DiscOp.mbFetch i).isCacheOp = false := rfl

theorem mbBlock_no_cache (ps : DiscProviders) (provider artist_name : String)
    (sp_id : Option String) (ids : PyDict) (tr : List DiscOp)
    (h : tr.all (fun op => !op.isCacheOp) = true) :
    ((mbBlock ps provider artist_name sp_id ids tr).2.2.all
      (fun op => !op.isCacheOp)) = true := by
  unfold mbBlock
  dsimp only
  split_ifs <;> simp [List.all_append, h]

theorem deezerBlock_no_cache (ps : DiscProviders) (provider artist_name : String)
    (sp_id : Option String) (ids : PyDict) (tr : List DiscOp)
    (h : tr.all (fun op => !op.isCacheOp) = true) :
    ((deezerBlock ps provider artist_name sp_id ids tr).2.2.all
      (fun op => !op.isCacheOp)) = true := by
  unfold deezerBlock
  dsimp only
  split_ifs <;>
    first
    | (simp [List.all_append, h]; done)
    | (apply mbBlock_no_cache
       simp [List.all_append, h])

theorem itunesBlock_no_cache (ps : DiscProviders) (provider artist_name : String)
    (sp_id : Option String) (ids : PyDict) (tr : List DiscOp)
    (h : tr.all (fun op => !op.isCacheOp) = true) :
    ((itunesBlock ps provider artist_name sp_id ids tr).2.2.all
      (fun op => !op.isCacheOp)) = true := by
  unfold itunesBlock
  dsimp only
  split_ifs <;>
    first
    | (simp [List.all_append, h]; done)
    | (apply deezerBlock_no_cache
       simp [List.all_append, h])

/-- C6: release discovery performs no release-cache interaction at all — for
every provider configuration and input, the operation trace of
`get_new_releases_for_artist` contains no `get_cached_releases` and no
`save_releases_to_cache` operation (on a concrete default-configuration run
the trace is exactly an iTunes search followed by an iTunes fetch, so
provider network calls happen with no cache consultation before them and no
cache update after); moreover the function has no `force_refresh` parameter,
so the scheduler's call, which passes the keyword `force_refresh`, does not
even bind — it raises `TypeError`. -/
theorem c6_discovery_cache_never_touched :
    (∀ (ps : DiscProviders) (provider artist_name : String) (cached_ids : PyDict)
        (spotify_artist_id : Option String),
      ((get_new_releases_for_artist ps provider artist_name cached_ids
          spotify_artist_id).2.2.all (fun op => !op.isCacheOp)) = true) ∧
    (get_new_releases_for_artist demoProviders "auto" "Soulive" [] none).2.2 =
      [DiscOp.itunesSearch "Soulive", DiscOp.itunesFetch "111"] ∧
    (get_new_releases_for_artist demoProviders "auto" "Soulive" [] none).1 =
      demoProviders.itunesFetch "111" ∧
    mcGetNewReleasesParams.contains "force_refresh" = false ∧
    schedulerDiscoveryKwargs.contains "force_refresh" = true ∧
    pyCallAccepted mcGetNewReleasesParams schedulerDiscoveryKwargs = false := by
  refine ⟨?_, by decide, by decide, by decide, by decide, by decide⟩
  intro ps provider artist_name cached_ids spotify_artist_id
  unfold get_new_releases_for_artist
  dsimp only
  split_ifs <;>
    first
    | (simp; done)
    | (apply itunesBlock_no_cache
       simp)

end Rythmx

namespace Rythmx

/-!  ## Acquisition worker — `app/services/acquisition.py`

`check_queue` makes one pass: (1) pending items go through the stub
`_submit_item`, which only logs and changes nothing; (2) the `submitted`
rows — fetched once, before any update — are re-checked against the library
and flipped to `found` on a hit; (3) the *same fetched list* is then swept
for rows older than the timeout, which are set to `failed` unconditionally.
The library-reader fallback `get_soulsync_artist_id` (exact lower() match,
then normalized-name comparison) is translated too; its `norm` is the ASCII
restriction of the source's NFKC+lower+article+punctuation normalization. -/

/-- Python `\w` on ASCII: letters, digits, underscore. -/
def pyWordChar (c : Char) : Bool := c.isAlphanum || c == '_'

/-- `str.split()`: split on whitespace runs, dropping empty pieces. -/
def splitWordsAux (acc : List Char) : List Char → List (List Char)
  | [] => if acc.isEmpty then [] else [acc.reverse]
  | c :: t =>
      if c.isWhitespace then
        if acc.isEmpty then splitWordsAux [] t
        else acc.reverse :: splitWordsAux [] t
      else splitWordsAux (c :: acc) t

/-- `" ".join(words)`. -/
def joinWords : List (List Char) → List Char
  | [] => []
  | [w] => w
  | w :: ws => w ++ ' ' :: joinWords ws

/-- `str.strip()` (whitespace only). -/
def stripWS (l : List Char) : List Char :=
  ((l.dropWhile Char.isWhitespace).reverse.dropWhile Char.isWhitespace).reverse

/-- The inline `_norm` of `get_soulsync_artist_id`: lowercase, drop a leading
article, join words, remove non-word non-space characters, strip. -/
def ssNorm (s : String) : String :=
  let lowered := (sqlLower s).data
  let ws := splitWordsAux [] lowered
  let ws2 :=
    match ws with
    | w :: rest =>
        if w = "the".data || w = "a".data || w = "an".data then rest else ws
    | [] => []
  ⟨stripWS ((joinWords ws2).filter
      (fun c => pyWordChar c || c.isWhitespace))⟩

/-- `soulsync_reader.get_soulsync_artist_id`: exact case-insensitive match on
`artists.name`, then a normalized-comparison fallback over all artists. -/
def get_soulsync_artist_id (db : SSDB) (artist_name : String) : Option String :=
  if artist_name.isEmpty then none
  else
    match db.artists.find? (fun a => sqlLower a.name == sqlLower artist_name) with
    | some a => some a.id
    | none =>
        match db.artists.find? (fun a => ssNorm a.name == ssNorm artist_name) with
        | some a => some a.id
        | none => none

/-- Descending insertion by `created_at` (SQL `ORDER BY created_at DESC`). -/
def insertCreatedDesc (x : QueueRow) : List QueueRow → List QueueRow
  | [] => [x]
  | y :: ys =>
      if y.created_at ≤ x.created_at then x :: y :: ys
      else y :: insertCreatedDesc x ys

/-- `cc_store.get_queue`: optional status / playlist filters, newest first. -/
def get_queue (q : List QueueRow) (status : Option String)
    (playlist_name : Option String) : List QueueRow :=
  let r1 := if pyTruthy status then
      q.filter (fun r => some r.status == status) else q
  let r2 := if pyTruthy playlist_name then
      r1.filter (fun r => r.playlist_name == playlist_name) else r1
  r2.foldr insertCreatedDesc []

/-- `acquisition._recheck_submitted`: for each fetched `submitted` row, run
the ownership matcher (soulsync id from the identity cache, else from the
library reader) and flip the row to `found` on a hit. -/
def _recheck_submitted (db : SSDB) (idcache : String → Option IdRow)
    (queue : List QueueRow) (items : List QueueRow) : List QueueRow :=
  items.foldl (fun q item =>
    let cached_ss := (idcache item.artist_name).bind (·.soulsync_artist_id)
    let ss_id := pyOr cached_ss (get_soulsync_artist_id db item.artist_name)
    let rating_key := check_album_owned db (some item.artist_name)
        (some item.album_title) ss_id none none
        item.deezer_album_id item.spotify_album_id item.itunes_album_id
    if pyTruthy rating_key then
      update_queue_status q item.id "found"
        (some ("rating_key=" ++ rating_key.getD ""))
    else q) queue

/-- `acquisition.check_queue`: submit stub for pending rows (no state
change), re-check the fetched `submitted` rows, then time out every row of
that same fetched list older than `timeout_days` — unconditionally setting it
to `failed`.  `created_at` is seconds; the `fromisoformat` failure branch
(`continue`) cannot occur for rows the store created itself. -/
def check_queue (db : SSDB) (idcache : String → Option IdRow)
    (queue : List QueueRow) (timeout_days now : Nat) : List QueueRow :=
  let submitted := get_queue queue (some "submitted") none
  let q1 := if !submitted.isEmpty then
      _recheck_submitted db idcache queue submitted else queue
  let cutoff := now - timeout_days * 86400
  submitted.foldl (fun q item =>
    if item.created_at < cutoff then
      update_queue_status q item.id "failed" (some "timeout")
    else q) q1

/-- Library fixture for the worker scenario: album "fireworks" by artist
"muse" is present with iTunes album id "555". -/
def workerDB : SSDB :=
  { artists := [ { id := "a1", name := "muse", itunes_artist_id := none
                   spotify_artist_id := none } ]
    albums := [ { id := "al1", artist_id := "a1", title := "fireworks"
                  itunes_album_id := some "555", deezer_id := none
                  spotify_album_id := none } ]
    tracks := [ { id := "T9", artist_id := "a1", album_id := "al1" } ] }

/-- Queue fixture: one `submitted` row for that album, created at time 0. -/
def staleSubmittedRow : QueueRow :=
  { id := 1, artist_name := "Muse", album_title := "Fireworks"
    release_date := some "2026-01-01", kind := some "album"
    source := some "itunes", itunes_album_id := some "555"
    deezer_album_id := none, spotify_album_id := none
    status := "submitted", requested_by := "cc", playlist_name := none
    provider_response := none, created_at := 0 }

end Rythmx

namespace Rythmx

/-- C7: the claim (and the spec's preemption guarantee) fail on the code.
The worker does re-check every `submitted` row before the timeout sweep, and
the re-check of the stale row succeeds — with a long timeout the row ends the
pass as `found` (second conjunct).  But the timeout sweep iterates the stale
pre-re-check snapshot and overwrites unconditionally, so with the 30-day
timeout the very row just flipped to `found` ends the same pass as `failed`
(first conjunct), where the claim requires `found`. -/
theorem c7_found_overwritten_by_timeout :
    ((check_queue workerDB (fun _ => none) [staleSubmittedRow] 30
        8640000).map (·.status)) = ["failed"] ∧
    ((check_queue workerDB (fun _ => none) [staleSubmittedRow] 200
        8640000).map (·.status)) = ["found"] ∧
    ((check_queue workerDB (fun _ => none) [staleSubmittedRow] 30
        8640000).map (·.provider_response)) = [some "timeout"] := by
  refine ⟨by decide, by decide, by decide⟩

end Rythmx
